import Mathlib

/-!
Verification of the command-manager plugin (`src/assets/main.py`) against its
specification.  The Python module is shallowly embedded: JSON dictionaries
become structures with `Option` fields (a `none` field models an absent key),
I/O outcomes become explicit parameters, and each Python method becomes a pure
Lean function over those types.
-/

set_option autoImplicit false

/-- One command entry `{name: ..., desc: ...}` inside a category.  The Python
code reads both keys with `dict.get` and a default, so either key may be
absent; `none` models an absent key. -/
structure CommandEntry where
  name? : Option String
  desc? : Option String
  deriving Repr, DecidableEq

/-- One category `{name: ..., commands: [...]}` of the persisted document. -/
structure Category where
  name : String
  commands : List CommandEntry
  deriving Repr, DecidableEq

/-- The persisted configuration document (a JSON object).  The code only ever
touches the keys `enabled` and `categories`; a `none` field models an absent
key.  Keys other than these two are never read nor written by the embedded
operations, so they are not modelled. -/
structure ConfigDoc where
  enabled? : Option Bool
  categories? : Option (List Category)
  deriving Repr, DecidableEq

/-- `True` when the document has both top-level keys `enabled` and
`categories`. -/
def hasTopLevelKeys (d : ConfigDoc) : Bool :=
  d.enabled?.isSome && d.categories?.isSome

/-- The default document returned by `ConfigManager.load_custom_commands` when
the file is missing or unreadable: `{"categories": [], "enabled": True}`. -/
def defaultDoc : ConfigDoc :=
  { enabled? := some true, categories? := some [] }

/-- Outcome of trying to read and parse the backing file
`custom_commands.json`, as seen by `load_custom_commands`:
the file may be missing (`commands_file.exists()` is false), opening or
reading it may raise an I/O exception, `json.load` may raise a parse error,
or the read succeeds and yields a document. -/
inductive LoadSource where
  | missing
  | ioError (msg : String)
  | parseError (msg : String)
  | parsed (d : ConfigDoc)
  deriving Repr, DecidableEq

/-- `ConfigManager.load_custom_commands` (main.py lines 234-253): if the file
exists and parses, the parsed data is returned as is; on a missing file or on
any exception (I/O or JSON parse, both caught by the bare `except Exception`)
the default document is returned.  The function is total: no outcome raises to
the caller. -/
def load_custom_commands : LoadSource → ConfigDoc
  | .parsed d => d
  | .missing => defaultDoc
  | .ioError _ => defaultDoc
  | .parseError _ => defaultDoc

/-- `ConfigManager.is_enabled` (lines 268-270): `custom_commands.get('enabled', True)`. -/
def is_enabled (d : ConfigDoc) : Bool :=
  d.enabled?.getD true

/-- `ConfigManager.get_categories` (lines 278-280): `custom_commands.get('categories', [])`. -/
def get_categories (d : ConfigDoc) : List Category :=
  d.categories?.getD []

/-- `ConfigManager.set_categories` (lines 282-293): assigns
`custom_commands['categories'] = categories`, then calls
`save_custom_commands` and returns its boolean result.  The disk write is
external, so its success is the parameter `saveOk`; `save_custom_commands`
catches its own exceptions and returns `False`, and the assignment itself
cannot fail on a dict, so `set_categories` returns exactly `saveOk` and the
mutation always happens before the save. -/
def set_categories (d : ConfigDoc) (categories : List Category) (saveOk : Bool) :
    ConfigDoc × Bool :=
  ({ d with categories? := some categories }, saveOk)

/-- `ConfigManager.set_enabled` (lines 272-276). -/
def set_enabled (d : ConfigDoc) (enabled : Bool) : ConfigDoc :=
  { d with enabled? := some enabled }

/-- `ConfigManager.reload_config` (lines 295-298): re-runs the loader. -/
def reload_config (src : LoadSource) : ConfigDoc :=
  load_custom_commands src

/-! ## Web editor server (`WebUIManager`) -/

/-- The plugin-command map produced by the extractor: plugin name to list of
formatted command strings, in insertion order (Python dict order). -/
abbrev CmdMap := List (String × List String)

/-- Body of an HTTP response of the web editor server.  `jsonError` is
`{"error": msg}`; `jsonSaveOk`/`jsonSaveFail` are `{"success": true,
"message": msg}` / `{"success": false, "error": msg}`. -/
inductive RespBody where
  | jsonDoc (d : ConfigDoc)
  | jsonMap (m : CmdMap)
  | jsonError (msg : String)
  | jsonSaveOk (message : String)
  | jsonSaveFail (error : String)
  | htmlPage (content : String)
  | textPage (content : String)
  deriving Repr, DecidableEq

/-- `True` when the body is a JSON payload describing an error
(`{"error": ...}` or `{"success": false, "error": ...}`). -/
def RespBody.isJsonError : RespBody → Bool
  | .jsonError _ => true
  | .jsonSaveFail _ => true
  | _ => false

structure Response where
  status : Nat
  body : RespBody
  deriving Repr, DecidableEq

/-- Parse result of the POST body of `/api/save-config`: `request.json()`
either raises (`Except.error`) or yields an object whose `categories` key may
be absent (`data.get('categories', [])`). -/
structure SaveBody where
  categories? : Option (List Category)
  deriving Repr, DecidableEq

/-- `WebUIManager.handle_index` (lines 789-801): serves `web_ui.html`.  The
parameter describes the bundled file: absent, or present with the outcome of
reading it.  A missing file yields a plain-text 500 response; the read itself
is NOT inside a try/except, so a read exception propagates out of the handler
(`Except.error`). -/
def handle_index (webUiFile : Option (Except String String)) : Except String Response :=
  match webUiFile with
  | some (.ok content) => .ok { status := 200, body := .htmlPage content }
  | some (.error e) => .error e
  | none => .ok { status := 500, body := .textPage "Web UI文件未找到" }

/-- `WebUIManager.handle_api_commands` (lines 803-812): returns the in-memory
document as JSON; any exception inside the try block (modelled by
`failure = some msg`) yields `{"error": msg}` with status 500. -/
def handle_api_commands (doc : ConfigDoc) (failure : Option String) : Response :=
  match failure with
  | some e => { status := 500, body := .jsonError e }
  | none => { status := 200, body := .jsonDoc doc }

/-- `WebUIManager.handle_api_all_commands` (lines 814-823): returns the live
extractor output as JSON, or `{"error": msg}` with status 500 when the try
block raises. -/
def handle_api_all_commands (result : Except String CmdMap) : Response :=
  match result with
  | .error e => { status := 500, body := .jsonError e }
  | .ok m => { status := 200, body := .jsonMap m }

/-- `WebUIManager.handle_api_save_config` (lines 825-845): parses the body,
takes `data.get('categories', [])`, calls `set_categories`, and answers with a
JSON success/failure object.  Every `web.json_response` in this handler is
built WITHOUT a `status=` argument, so every branch (including the `except`
branch) uses aiohttp's default status 200.  Returns the updated document
together with the response. -/
def handle_api_save_config (doc : ConfigDoc) (body : Except String SaveBody)
    (saveOk : Bool) : ConfigDoc × Response :=
  match body with
  | .error e =>
      (doc, { status := 200, body := .jsonSaveFail ("保存失败: " ++ e) })
  | .ok data =>
      let categories := data.categories?.getD []
      let result := set_categories doc categories saveOk
      if result.2 then
        (result.1, { status := 200, body := .jsonSaveOk "配置保存成功" })
      else
        (result.1, { status := 200, body := .jsonSaveFail "保存配置失败" })

/-! ## Claims about the configuration store and the web endpoints -/

/-- C2: for every load of the configuration, if the backing file is missing,
fails to parse, or raises any I/O exception, `load_custom_commands` returns
the default document `{enabled: true, categories: []}`.  (The Lean function is
total, so no outcome raises to the caller.) -/
theorem claim_C2_load_default (msg : String) :
    load_custom_commands .missing = defaultDoc ∧
    load_custom_commands (.ioError msg) = defaultDoc ∧
    load_custom_commands (.parseError msg) = defaultDoc ∧
    defaultDoc = { enabled? := some true, categories? := some [] } :=
  ⟨rfl, rfl, rfl, rfl⟩

/-- C3: `set_categories X` followed by `get_categories` returns exactly `X`,
whatever the previous document and whatever the disk-write outcome; and a POST
to `/api/save-config` with body `{"categories": X}` followed by a GET
`/api/commands` reports exactly the category list `X`. -/
theorem claim_C3_roundtrip (d : ConfigDoc) (X : List Category) (saveOk : Bool)
    (bodyOk : Bool) :
    get_categories (set_categories d X saveOk).1 = X ∧
    (let d1 := (handle_api_save_config d (.ok { categories? := some X }) bodyOk).1
     handle_api_commands d1 none = { status := 200, body := .jsonDoc d1 } ∧
     d1.categories? = some X ∧ get_categories d1 = X) := by
  refine ⟨rfl, rfl, ?_, ?_⟩ <;>
    simp [handle_api_save_config, set_categories, get_categories] <;>
    cases bodyOk <;> simp

/-- C1 counterexample: an internal error in `handle_api_save_config` (here a
body that fails to parse as JSON) is answered with HTTP status 200, not a 5xx
status, so it is false that every endpoint handler answers internal errors
with a server-error status. -/
theorem claim_C1_counterexample :
    (handle_api_save_config defaultDoc (.error "Invalid JSON") true).2.status = 200 ∧
    ¬ (500 ≤ (handle_api_save_config defaultDoc (.error "Invalid JSON") true).2.status) := by
  constructor
  · rfl
  · decide

/-- C1 amended: `GET /api/commands` and `GET /api/all-commands` answer
internal errors with a JSON error payload and status 500; `POST
/api/save-config` catches internal errors and answers with a JSON error
payload but with status 200; `GET /` answers a missing editor file with a
plain-text (non-JSON) 500 and lets a file-read exception propagate to the web
framework instead of catching it.  No handler function itself crashes the
server (each is total or returns its exception to the framework). -/
theorem claim_C1_amended (doc : ConfigDoc) (e : String) (saveOk : Bool) :
    handle_api_commands doc (some e) = { status := 500, body := .jsonError e } ∧
    (handle_api_commands doc (some e)).body.isJsonError = true ∧
    handle_api_all_commands (.error e) = { status := 500, body := .jsonError e } ∧
    (handle_api_save_config doc (.error e) saveOk).2
      = { status := 200, body := .jsonSaveFail ("保存失败: " ++ e) } ∧
    (handle_api_save_config doc (.error e) saveOk).2.body.isJsonError = true ∧
    handle_index none = .ok { status := 500, body := .textPage "Web UI文件未找到" } ∧
    handle_index (some (.error e)) = .error e :=
  ⟨rfl, rfl, rfl, rfl, rfl, rfl, rfl⟩

/-- C8 counterexample: a backing file that parses successfully but whose JSON
object lacks both top-level keys is held verbatim by the store after load, so
the held document does not always have the keys `enabled` and `categories`. -/
theorem claim_C8_counterexample :
    hasTopLevelKeys
      (load_custom_commands (.parsed { enabled? := none, categories? := none })) = false :=
  rfl

/-- C8 amended: after a load of a missing, unreadable or unparsable file the
held document is the default and has both top-level keys; a successfully
parsed file is held verbatim, so the held document has the two keys exactly
when the file's document did; the accessors `is_enabled` and `get_categories`
supply the defaults `true` and `[]` when a key is absent. -/
theorem claim_C8_amended (msg : String) (d : ConfigDoc) (c : Option (List Category))
    (e : Option Bool) :
    hasTopLevelKeys (load_custom_commands .missing) = true ∧
    hasTopLevelKeys (load_custom_commands (.ioError msg)) = true ∧
    hasTopLevelKeys (load_custom_commands (.parseError msg)) = true ∧
    load_custom_commands (.parsed d) = d ∧
    is_enabled { enabled? := none, categories? := c } = true ∧
    get_categories { enabled? := e, categories? := none } = [] :=
  ⟨rfl, rfl, rfl, rfl, rfl, rfl⟩

/-- C9: a POST to `/api/save-config` whose JSON body lacks a `categories`
field replaces the store's category list with the empty list, and reports
success exactly when the save succeeds. -/
theorem claim_C9_missing_categories (d : ConfigDoc) (saveOk : Bool) :
    (handle_api_save_config d (.ok { categories? := none }) saveOk).1.categories? = some [] ∧
    get_categories (handle_api_save_config d (.ok { categories? := none }) saveOk).1 = [] ∧
    (handle_api_save_config d (.ok { categories? := none }) saveOk).2
      = (if saveOk then { status := 200, body := .jsonSaveOk "配置保存成功" }
         else { status := 200, body := .jsonSaveFail "保存配置失败" }) := by
  cases saveOk <;> exact ⟨rfl, rfl, rfl⟩

/-- C10: when the disk write during `set_categories X` fails, the call returns
`false` but the in-memory document is still mutated: a subsequent
`get_categories` returns `X` (the mutation is not rolled back on save
failure). -/
theorem claim_C10_no_rollback (d : ConfigDoc) (X : List Category) :
    (set_categories d X false).2 = false ∧
    get_categories (set_categories d X false).1 = X :=
  ⟨rfl, rfl⟩

/-! ## Command catalog extractor (`CommandParser.get_all_commands`, lines 306-371) -/

/-- An event filter attached to a handler: the code type-checks each filter
against `CommandFilter` (carrying `command_name`) and `CommandGroupFilter`
(carrying `group_name`); every other filter class is `other`. -/
inductive EventFilter where
  | command (command_name : String)
  | commandGroup (group_name : String)
  | other
  deriving Repr, DecidableEq

/-- A `StarHandlerMetadata` record of the host's handler registry. -/
structure StarHandlerMetadata where
  handler_module_path : String
  desc : String
  event_filters : List EventFilter
  deriving Repr, DecidableEq

/-- An entry of `star_handlers_registry`: either a `StarHandlerMetadata`
(the only kind the code keeps, via `isinstance`) or anything else. -/
inductive RegistryEntry where
  | star (h : StarHandlerMetadata)
  | other
  deriving Repr, DecidableEq

/-- A `StarMetadata` record from `context.get_all_stars()`:
`name`, `module_path` (possibly absent) and the `activated` flag. -/
structure StarMetadata where
  name : String
  module_path : Option String
  activated : Bool
  deriving Repr, DecidableEq

/-- The filter scan of lines 348-354: walk the handler's `event_filters` and
take the first `CommandFilter`'s `command_name` or the first
`CommandGroupFilter`'s `group_name`, whichever comes first. -/
def findCommandName : List EventFilter → Option String
  | [] => none
  | .command n :: _ => some n
  | .commandGroup n :: _ => some n
  | .other :: rest => findCommandName rest

/-- Lines 356-360: format a resolved command name with the handler's
description (`"name#description"` when the description is truthy, else the
bare name). -/
def formatCommand (desc : String) (n : String) : String :=
  if desc ≠ "" then n ++ "#" ++ desc else n

/-- The formatted command contributed by one registry entry to the plugin
whose module path is `mp`: `none` when the entry is not a
`StarHandlerMetadata`, belongs to another module, or has no truthy resolved
command name (an empty `command_name` is falsy in Python). -/
def handlerFormatted (mp : String) : RegistryEntry → Option String
  | .other => none
  | .star h =>
      if h.handler_module_path = mp then
        match findCommandName h.event_filters with
        | none => none
        | some n => if n = "" then none else some (formatCommand h.desc n)
      else none

/-- The sequence of formatted commands produced while scanning the registry
for one star, in scan order and before de-duplication. -/
def rawCommands (registry : List RegistryEntry) (star : StarMetadata) : List String :=
  match star.module_path with
  | none => []
  | some mp => registry.filterMap (handlerFormatted mp)

/-- `defaultdict(list)` plus the guarded append of lines 362-363: looking up
`plugin_commands[k]` creates the key with `[]` when absent, and the value `v`
is appended exactly when it is not already in the list. -/
def mapAppendUnique : CmdMap → String → String → CmdMap
  | [], k, v => [(k, [v])]
  | (k', vs) :: rest, k, v =>
      if k' = k then (k', if v ∈ vs then vs else vs ++ [v]) :: rest
      else (k', vs) :: mapAppendUnique rest k v

/-- Body of the inner loop over `star_handlers_registry` (lines 337-365) for a
plugin with name `k` and module path `mp`: a matching handler with a truthy
resolved command name appends its formatted string if not already present. -/
def innerStep (mp k : String) (m : CmdMap) (entry : RegistryEntry) : CmdMap :=
  match handlerFormatted mp entry with
  | none => m
  | some fc => mapAppendUnique m k fc

/-- Body of the outer loop over the activated stars (lines 323-365): skip the
plugin itself and stars with a falsy name or module path, otherwise run the
inner loop over the whole registry. -/
def starStep (registry : List RegistryEntry) (m : CmdMap) (star : StarMetadata) : CmdMap :=
  if star.name = "astrbot_plugin_command_manager" then m
  else if star.name = "" then m
  else
    match star.module_path with
    | none => m
    | some mp =>
        if mp = "" then m
        else registry.foldl (innerStep mp star.name) m

/-- `CommandParser.get_all_commands` (lines 306-371).  `stars?` is the outcome
of `context.get_all_stars()` (`none` when it raises, in which case the
function returns the empty map).  The outer fold walks the activated stars,
skipping the plugin's own name and stars with a falsy name or module path; the
inner fold walks the whole handler registry exactly as the Python loop does.
(When there are no activated stars the code returns `{}` early; the fold over
the empty list yields the same empty map.) -/
def get_all_commands (stars? : Option (List StarMetadata))
    (registry : List RegistryEntry) : CmdMap :=
  match stars? with
  | none => []
  | some allStars =>
      (allStars.filter (fun s => s.activated)).foldl (starStep registry) []

/-- Append, de-duplicating against what is already present (list `in` check
followed by `append`). -/
def addUnique (vs : List String) (v : String) : List String :=
  if v ∈ vs then vs else vs ++ [v]

/-- First-seen-order de-duplication of a list of strings: each distinct string
appears once, at the position of its first occurrence. -/
def dedupFS (l : List String) : List String :=
  l.foldl addUnique []

/-- Insert a whole list of values for one key, one at a time. -/
def insertAll (m : CmdMap) (k : String) (vs : List String) : CmdMap :=
  vs.foldl (fun m' v => mapAppendUnique m' k v) m

/-- Lookup in the ordered map (first matching key). -/
def mapLookup (k : String) : CmdMap → Option (List String)
  | [] => none
  | (k', vs) :: rest => if k' = k then some vs else mapLookup k rest

/-- `True` for stars the outer loop does not skip. -/
def validStar (s : StarMetadata) : Bool :=
  s.name ≠ "astrbot_plugin_command_manager" && s.name ≠ "" &&
    (match s.module_path with
     | none => false
     | some mp => mp ≠ "")

/-- The formatted commands a list of stars contributes to key `k`, in
processing order. -/
def contribFor (registry : List RegistryEntry) (k : String) :
    List StarMetadata → List String
  | [] => []
  | s :: rest =>
      (if validStar s && s.name = k then rawCommands registry s else []) ++
        contribFor registry k rest

/-! ### Lemmas about the ordered map -/

/-- The effect, on the value stored under one key, of pushing a list of new
strings through the guarded append: an absent key stays absent when nothing is
pushed and otherwise receives the de-duplicated pushed strings; a present
value absorbs the pushed strings one at a time. -/
def dedupInto : Option (List String) → List String → Option (List String)
  | none, [] => none
  | none, v :: vs => some ((v :: vs).foldl addUnique [])
  | some acc, vs => some (vs.foldl addUnique acc)

theorem dedupInto_nil (a : Option (List String)) : dedupInto a [] = a := by
  cases a <;> rfl

theorem dedupInto_append (a : Option (List String)) (l1 l2 : List String) :
    dedupInto a (l1 ++ l2) = dedupInto (dedupInto a l1) l2 := by
  cases a with
  | some acc => simp [dedupInto, List.foldl_append]
  | none =>
      cases l1 with
      | nil => simp [dedupInto]
      | cons v vs =>
          cases l2 with
          | nil => simp [dedupInto]
          | cons w ws => simp [dedupInto, List.foldl_append]

theorem mapAppendUnique_lookup_self (m : CmdMap) (k v : String) :
    mapLookup k (mapAppendUnique m k v) = some (addUnique ((mapLookup k m).getD []) v) := by
  induction m with
  | nil => simp [mapAppendUnique, mapLookup, addUnique]
  | cons p rest ih =>
      obtain ⟨k', vs⟩ := p
      by_cases h : k' = k
      · subst h; simp [mapAppendUnique, mapLookup, addUnique]
      · simp [mapAppendUnique, mapLookup, h, ih]

theorem mapAppendUnique_lookup_other (m : CmdMap) (k k' v : String) (h : k' ≠ k) :
    mapLookup k' (mapAppendUnique m k v) = mapLookup k' m := by
  induction m with
  | nil => simp [mapAppendUnique, mapLookup, Ne.symm h]
  | cons p rest ih =>
      obtain ⟨a, vs⟩ := p
      by_cases ha : a = k
      · subst ha; simp [mapAppendUnique, mapLookup, Ne.symm h]
      · by_cases ha' : a = k'
        · subst ha'; simp [mapAppendUnique, mapLookup, ha]
        · simp [mapAppendUnique, mapLookup, ha, ha', ih]

theorem insertAll_lookup_some (k : String) (vs : List String) :
    ∀ (m : CmdMap) (acc : List String), mapLookup k m = some acc →
      mapLookup k (insertAll m k vs) = some (vs.foldl addUnique acc) := by
  induction vs with
  | nil => intro m acc h; simpa [insertAll] using h
  | cons v vs ih =>
      intro m acc h
      have h1 : mapLookup k (mapAppendUnique m k v) = some (addUnique acc v) := by
        rw [mapAppendUnique_lookup_self, h]; rfl
      exact ih (mapAppendUnique m k v) (addUnique acc v) h1

theorem insertAll_lookup_none (k v : String) (vs : List String) (m : CmdMap)
    (h : mapLookup k m = none) :
    mapLookup k (insertAll m k (v :: vs)) = some ((v :: vs).foldl addUnique []) := by
  have h1 : mapLookup k (mapAppendUnique m k v) = some (addUnique [] v) := by
    rw [mapAppendUnique_lookup_self, h]; rfl
  exact insertAll_lookup_some k vs (mapAppendUnique m k v) (addUnique [] v) h1

theorem insertAll_lookup_other (k k' : String) (h : k' ≠ k) (vs : List String) :
    ∀ m : CmdMap, mapLookup k' (insertAll m k vs) = mapLookup k' m := by
  induction vs with
  | nil => intro m; rfl
  | cons v vs ih =>
      intro m
      have : insertAll m k (v :: vs) = insertAll (mapAppendUnique m k v) k vs := rfl
      rw [this, ih, mapAppendUnique_lookup_other _ _ _ _ h]

theorem innerFold_eq_insertAll (mp k : String) :
    ∀ (registry : List RegistryEntry) (m : CmdMap),
      registry.foldl (innerStep mp k) m
        = insertAll m k (registry.filterMap (handlerFormatted mp)) := by
  intro registry
  induction registry with
  | nil => intro m; rfl
  | cons e rest ih =>
      intro m
      cases hfe : handlerFormatted mp e with
      | none => simp [List.foldl_cons, innerStep, hfe, List.filterMap_cons, ih]
      | some fc =>
          simp only [List.foldl_cons, innerStep, hfe, List.filterMap_cons, ih]
          rfl

theorem starStep_lookup (registry : List RegistryEntry) (m : CmdMap)
    (s : StarMetadata) (k : String) :
    mapLookup k (starStep registry m s) =
      dedupInto (mapLookup k m)
        (if validStar s && s.name = k then rawCommands registry s else []) := by
  by_cases h1 : s.name = "astrbot_plugin_command_manager"
  · simp [starStep, validStar, h1, dedupInto_nil]
  · by_cases h2 : s.name = ""
    · simp [starStep, validStar, h1, h2, dedupInto_nil]
    · cases hmp : s.module_path with
      | none => simp [starStep, validStar, h1, h2, hmp, dedupInto_nil]
      | some mp =>
          by_cases h3 : mp = ""
          · simp [starStep, validStar, h1, h2, hmp, h3, dedupInto_nil]
          · have hv : validStar s = true := by
              simp [validStar, h1, h2, hmp, h3]
            have hstep : starStep registry m s
                = insertAll m s.name (rawCommands registry s) := by
              simp [starStep, h1, h2, hmp, h3, innerFold_eq_insertAll,
                rawCommands]
            rw [hstep]
            by_cases hk : s.name = k
            · subst hk
              have hc : (validStar s && decide (s.name = s.name)) = true := by
                simp [hv]
              rw [if_pos hc]
              cases hacc : mapLookup s.name m with
              | some acc =>
                  rw [insertAll_lookup_some s.name (rawCommands registry s) m acc hacc]
                  rfl
              | none =>
                  cases hraw : rawCommands registry s with
                  | nil => simp [insertAll, hacc, dedupInto]
                  | cons v vs =>
                      rw [insertAll_lookup_none s.name v vs m hacc]
                      rfl
            · rw [insertAll_lookup_other s.name k (Ne.symm hk) _ m]
              simp [hk, dedupInto_nil]

theorem foldStars_lookup (registry : List RegistryEntry) (k : String) :
    ∀ (ss : List StarMetadata) (m : CmdMap),
      mapLookup k (ss.foldl (starStep registry) m)
        = dedupInto (mapLookup k m) (contribFor registry k ss) := by
  intro ss
  induction ss with
  | nil => intro m; simp [contribFor, dedupInto_nil]
  | cons s rest ih =>
      intro m
      have hstep : (s :: rest).foldl (starStep registry) m
          = rest.foldl (starStep registry) (starStep registry m s) := rfl
      rw [hstep, ih, starStep_lookup]
      simp only [contribFor]
      rw [dedupInto_append]

theorem get_all_commands_lookup (stars : List StarMetadata)
    (registry : List RegistryEntry) (k : String) :
    mapLookup k (get_all_commands (some stars) registry)
      = dedupInto none (contribFor registry k (stars.filter (fun s => s.activated))) := by
  have h := foldStars_lookup registry k (stars.filter (fun s => s.activated)) []
  simpa [get_all_commands, mapLookup] using h

theorem addUnique_nodup (vs : List String) (v : String) (h : vs.Nodup) :
    (addUnique vs v).Nodup := by
  unfold addUnique
  split
  · exact h
  · next hv =>
      rw [List.nodup_append]
      exact ⟨h, List.nodup_singleton v, by
        intro a ha hav
        rw [List.mem_singleton] at hav
        exact hv (hav ▸ ha)⟩

theorem foldl_addUnique_nodup (l : List String) :
    ∀ acc : List String, acc.Nodup → (l.foldl addUnique acc).Nodup := by
  induction l with
  | nil => intro acc h; exact h
  | cons v vs ih => intro acc h; exact ih (addUnique acc v) (addUnique_nodup acc v h)

theorem dedupFS_nodup (l : List String) : (dedupFS l).Nodup :=
  foldl_addUnique_nodup l [] List.nodup_nil

theorem contribFor_exists (registry : List RegistryEntry) (k : String) :
    ∀ ss : List StarMetadata, contribFor registry k ss ≠ [] →
      ∃ s, s ∈ ss ∧ validStar s = true ∧ s.name = k ∧ rawCommands registry s ≠ [] := by
  intro ss
  induction ss with
  | nil => intro h; exact absurd rfl h
  | cons s rest ih =>
      intro h
      cases hraw : (if validStar s && s.name = k then rawCommands registry s else []) with
      | nil =>
          rw [contribFor, hraw, List.nil_append] at h
          obtain ⟨s', hmem, hv, hn, hr⟩ := ih h
          exact ⟨s', List.mem_cons_of_mem s hmem, hv, hn, hr⟩
      | cons v vs =>
          have hcond : (validStar s && s.name = k) = true := by
            by_contra hq
            rw [if_neg (by simpa using hq)] at hraw
            exact List.noConfusion hraw
          have hcond' : validStar s = true ∧ s.name = k := by
            simpa [Bool.and_eq_true, decide_eq_true_eq] using hcond
          refine ⟨s, List.mem_cons_self s rest, hcond'.1, hcond'.2, ?_⟩
          rw [if_pos hcond] at hraw
          rw [hraw]
          exact List.cons_ne_nil v vs

/-! ### Claims about the extractor -/

/-- C4: the extractor's output map never has a key equal to the plugin's own
name, and never has a key for a plugin none of whose handlers has a resolvable
command-name or command-group-name filter: every key of the output comes from
an activated star with that name for which the registry scan produced at least
one formatted command (which requires a handler of that star's module with a
truthy resolved command or command-group name). -/
theorem claim_C4_no_self_no_empty (stars? : Option (List StarMetadata))
    (registry : List RegistryEntry) (k : String) (vs : List String)
    (h : mapLookup k (get_all_commands stars? registry) = some vs) :
    k ≠ "astrbot_plugin_command_manager" ∧
    ∃ stars, stars? = some stars ∧
      ∃ s, s ∈ stars ∧ s.activated = true ∧ s.name = k ∧
        rawCommands registry s ≠ [] := by
  cases stars? with
  | none => simp [get_all_commands, mapLookup] at h
  | some stars =>
      rw [get_all_commands_lookup] at h
      have hne : contribFor registry k (stars.filter (fun s => s.activated)) ≠ [] := by
        intro he
        rw [he] at h
        simp [dedupInto] at h
      obtain ⟨s, hmem, hvalid, hname, hraw⟩ := contribFor_exists registry k _ hne
      have hmem' := List.mem_filter.mp hmem
      have hself : s.name ≠ "astrbot_plugin_command_manager" := by
        simp only [validStar, Bool.and_eq_true, decide_eq_true_eq] at hvalid
        exact hvalid.1.1
      exact ⟨hname ▸ hself, stars, rfl, s, hmem'.1, hmem'.2, hname, hraw⟩

/-- C5: every entry of the extractor's output has a duplicate-free command
list, and that list is the first-seen-order de-duplication of the raw sequence
of formatted strings produced while scanning that plugin's handlers. -/
theorem claim_C5_dedup_first_seen (stars : List StarMetadata)
    (registry : List RegistryEntry) (k : String) (vs : List String)
    (h : mapLookup k (get_all_commands (some stars) registry) = some vs) :
    vs.Nodup ∧
    vs = dedupFS (contribFor registry k (stars.filter (fun s => s.activated))) := by
  rw [get_all_commands_lookup] at h
  cases hc : contribFor registry k (stars.filter (fun s => s.activated)) with
  | nil => rw [hc] at h; simp [dedupInto] at h
  | cons v rest =>
      rw [hc] at h
      simp only [dedupInto, Option.some.injEq] at h
      subst h
      exact ⟨foldl_addUnique_nodup _ [] List.nodup_nil, rfl⟩

/-- A concrete activated star used to exercise the extractor theorems. -/
def exStar : StarMetadata :=
  { name := "pluginA", module_path := some "mod.a", activated := true }

/-- A concrete handler of `exStar`'s module with a command filter. -/
def exHandler : StarHandlerMetadata :=
  { handler_module_path := "mod.a", desc := "say hello",
    event_filters := [.command "hello"] }

/-- A registry containing the same handler twice, so the first-seen
de-duplication is exercised. -/
def exRegistry : List RegistryEntry := [.star exHandler, .star exHandler]

/-- Witness for C4 at a concrete registry state. -/
theorem claim_C4_witness :
    "pluginA" ≠ "astrbot_plugin_command_manager" ∧
    ∃ stars, some [exStar] = some stars ∧
      ∃ s, s ∈ stars ∧ s.activated = true ∧ s.name = "pluginA" ∧
        rawCommands exRegistry s ≠ [] :=
  claim_C4_no_self_no_empty (some [exStar]) exRegistry "pluginA"
    ["hello#say hello"] (by decide)

/-- Witness for C5 at a concrete registry state (the duplicated handler is
collapsed to one formatted string). -/
theorem claim_C5_witness :
    (["hello#say hello"] : List String).Nodup ∧
    ["hello#say hello"]
      = dedupFS (contribFor exRegistry "pluginA"
          (([exStar]).filter (fun s => s.activated))) :=
  claim_C5_dedup_first_seen [exStar] exRegistry "pluginA"
    ["hello#say hello"] (by decide)

/-! ## Chat help command (`CommandManagerPlugin.show_help`, lines 905-993) -/

/-- A reply emitted to the chat event sink: `event.plain_result` or
`event.image_result`. -/
inductive Reply where
  | plain (text : String)
  | image (path : String)
  deriving Repr, DecidableEq

/-- Outcome of `image_generator.create_help_image` when it is reached:
a path on success, `failed` when the renderer returned no result (`None`),
`raised` when the render call raised (caught by the surrounding
try/except). -/
inductive RenderOutcome where
  | success (path : String)
  | failed
  | raised (msg : String)
  deriving Repr, DecidableEq

/-- What one invocation of the help command did: the replies it emitted,
whether it ever called the command-catalog extractor
(`CommandParser.get_all_commands`), and whether it ever attempted a render
(`create_help_image`). -/
structure HelpEffects where
  replies : List Reply
  extractorInvoked : Bool
  renderAttempted : Bool
  deriving Repr, DecidableEq

/-- The per-category text block built by both plain-text fallbacks of
`show_help` (lines 928-940 and 973-985; the loop is written twice in the
source with identical bodies): a `📁 name` line, then one `  • /name - desc`
or `  • /name` line per command, then a blank line. -/
def categories_text (categories : List Category) : String :=
  categories.foldl (fun acc category =>
    let block := category.commands.foldl (fun acc2 cmd =>
      let cmd_name := cmd.name?.getD ""
      let cmd_desc := cmd.desc?.getD ""
      if cmd_desc ≠ "" then
        acc2 ++ "  • /" ++ cmd_name ++ " - " ++ cmd_desc ++ "\n"
      else
        acc2 ++ "  • /" ++ cmd_name ++ "\n") ""
    acc ++ "📁 " ++ category.name ++ "\n" ++ block ++ "\n") ""

/-- The plain-text help sent when the renderer is not initialized
(lines 925-946). -/
def unavailable_text (categories : List Category) (webUrl : String) : String :=
  "🚀 AstrBot 指令帮助系统\n\n" ++
    "⚠️ 图片生成功能暂不可用，使用文本格式显示帮助\n\n" ++
    categories_text categories ++
    "💡 更多功能请访问Web界面: " ++ webUrl ++ "\n" ++
    "🖼️ 使用 /帮助管理 安装依赖 来安装图片生成功能"

/-- The plain-text help sent when a render was attempted but produced no
image (lines 970-989). -/
def render_failed_text (categories : List Category) (webUrl : String) : String :=
  "🚀 AstrBot 指令帮助系统\n\n" ++
    "⚠️ 图片生成失败，使用文本格式显示帮助\n\n" ++
    categories_text categories ++
    "💡 更多功能请访问Web界面: " ++ webUrl ++ "\n"

/-- `CommandManagerPlugin.show_help` (lines 905-993).  The configuration
document, the renderer's `initialized` flag and the render outcome are the
relevant state; `webUrl` is `web_ui.get_web_url()`.  The command never calls
the extractor in any branch (no branch references `command_parser`), and it
reaches `create_help_image` only with `enabled`, a non-empty category list and
an initialized renderer. -/
def show_help (doc : ConfigDoc) (rendererInitialized : Bool)
    (render : RenderOutcome) (webUrl : String) : HelpEffects :=
  if is_enabled doc = false then
    { replies := [.plain "帮助功能暂未启用"],
      extractorInvoked := false, renderAttempted := false }
  else
    let categories := get_categories doc
    if categories = [] then
      { replies := [.plain ("📋 暂无配置的帮助菜单\n\n请通过Web UI配置您的指令分类：\n" ++ webUrl)],
        extractorInvoked := false, renderAttempted := false }
    else if rendererInitialized = false then
      { replies := [.plain (unavailable_text categories webUrl)],
        extractorInvoked := false, renderAttempted := false }
    else
      match render with
      | .success path =>
          { replies := [.image path],
            extractorInvoked := false, renderAttempted := true }
      | .failed =>
          { replies := [.plain (render_failed_text categories webUrl)],
            extractorInvoked := false, renderAttempted := true }
      | .raised _ =>
          { replies := [.plain "❌ 生成帮助时出现错误，请查看日志"],
            extractorInvoked := false, renderAttempted := true }

/-- C7: whenever the store's enabled flag is false, the help command replies
with the fixed disabled message and invokes neither the command-catalog
extractor nor the renderer, whatever the renderer state or render outcome. -/
theorem claim_C7_disabled (doc : ConfigDoc) (rendererInitialized : Bool)
    (render : RenderOutcome) (webUrl : String)
    (h : is_enabled doc = false) :
    show_help doc rendererInitialized render webUrl =
      { replies := [.plain "帮助功能暂未启用"],
        extractorInvoked := false, renderAttempted := false } := by
  rw [show_help, if_pos h]

/-- Witness for C7 at a concrete disabled configuration. -/
theorem claim_C7_witness :
    show_help { enabled? := some false, categories? := some [] } true
        (.success "/tmp/help.png") "http://localhost:8081" =
      { replies := [.plain "帮助功能暂未启用"],
        extractorInvoked := false, renderAttempted := false } :=
  claim_C7_disabled { enabled? := some false, categories? := some [] } true
    (.success "/tmp/help.png") "http://localhost:8081" rfl

/-! ## Catalog formatter (`ImageGenerator.generate_help_html`, lines 380-617)

The Python method builds one big HTML string from an f-string template.  The
constant fragments below are the template's literal text between the
interpolation slots, taken verbatim from the source (braces and apostrophes
written with hex escapes).  `helpHtmlPre`/`helpHtmlMid`/`helpHtmlHeadEnd`
surround the two `stat-number` slots that report the category count and the
total command count. -/

def helpHtmlPre : String :=
  "\n        <!DOCTYPE html>\n        <html lang=\"zh-CN\">\n        <head>\n            <meta charset=\"UTF-8\">\n            <meta name=\"viewport\" content=\"width=device-width, initial-scale=1.0\">\n            <title>AstrBot 指令帮助系统</title>\n            <style>\n                body \x7b\n                    font-family: \x27Microsoft YaHei\x27, \x27Segoe UI\x27, sans-serif;\n                    background: linear-gradient(135deg, #667eea 0%, #764ba2 100%);\n                    margin: 0;\n                    padding: 40px;\n                    color: #333;\n                    min-height: 100vh;\n                \x7d\n                .container \x7b\n                    max-width: 900px;\n                    margin: 0 auto;\n                    background: rgba(255, 255, 255, 0.95);\n                    backdrop-filter: blur(20px);\n                    border-radius: 20px;\n                    box-shadow: 0 20px 40px rgba(0, 0, 0, 0.1);\n                    overflow: hidden;\n                    border: 1px solid rgba(255, 255, 255, 0.2);\n                \x7d\n                .header \x7b\n                    background: linear-gradient(135deg, #4a6cf7 0%, #8b5cf6 100%);\n                    color: white;\n                    padding: 40px;\n                    text-align: center;\n                    position: relative;\n                    overflow: hidden;\n                \x7d\n                .header::before \x7b\n                    content: \x27\x27;\n                    position: absolute;\n                    top: -50%;\n                    left: -50%;\n                    width: 200%;\n                    height: 200%;\n                    background: radial-gradient(circle, rgba(255,255,255,0.1) 0%, rgba(255,255,255,0) 70%);\n                \x7d\n                .header h1 \x7b\n                    font-size: 2.5em;\n                    margin: 0 0 10px 0;\n                    font-weight: 800;\n                    text-shadow: 0 2px 10px rgba(0,0,0,0.3);\n                \x7d\n                .header p \x7b\n                    font-size: 1.2em;\n                    opacity: 0.9;\n                    margin: 0;\n                    font-weight: 500;\n                \x7d\n                .stats \x7b\n                    display: grid;\n                    grid-template-columns: 1fr 1fr;\n                    gap: 20px;\n                    padding: 30px;\n                    background: rgba(255, 255, 255, 0.1);\n                    margin: 20px;\n                    border-radius: 15px;\n                    backdrop-filter: blur(10px);\n                \x7d\n                .stat-item \x7b\n                    text-align: center;\n                    color: white;\n                \x7d\n                .stat-number \x7b\n                    font-size: 2.5em;\n                    font-weight: 800;\n                    display: block;\n                    line-height: 1;\n                \x7d\n                .stat-label \x7b\n                    font-size: 1em;\n                    opacity: 0.9;\n                    margin-top: 8px;\n                \x7d\n                .categories \x7b\n                    padding: 30px;\n                \x7d\n                .category \x7b\n                    background: white;\n                    border-radius: 15px;\n                    padding: 25px;\n                    margin-bottom: 25px;\n                    box-shadow: 0 8px 25px rgba(0, 0, 0, 0.1);\n                    border-left: 5px solid #4a6cf7;\n                    transition: transform 0.3s ease;\n                \x7d\n                .category:hover \x7b\n                    transform: translateY(-5px);\n                \x7d\n                .category-header \x7b\n                    display: flex;\n                    justify-content: space-between;\n                    align-items: center;\n                    margin-bottom: 20px;\n                    padding-bottom: 15px;\n                    border-bottom: 2px solid #f1f5f9;\n                \x7d\n                .category-title \x7b\n                    font-size: 1.4em;\n                    font-weight: 700;\n                    color: #2c3e50;\n                    display: flex;\n                    align-items: center;\n                    gap: 10px;\n                \x7d\n                .category-count \x7b\n                    background: #4a6cf7;\n                    color: white;\n                    padding: 5px 12px;\n                    border-radius: 20px;\n                    font-size: 0.9em;\n                    font-weight: 600;\n                \x7d\n                .commands-grid \x7b\n                    display: grid;\n                    grid-template-columns: repeat(auto-fill, minmax(280px, 1fr));\n                    gap: 15px;\n                \x7d\n                .command-item \x7b\n                    background: #f8fafc;\n                    border: 1px solid #e2e8f0;\n                    border-radius: 10px;\n                    padding: 15px;\n                    transition: all 0.3s ease;\n                    border-left: 3px solid #10b981;\n                \x7d\n                .command-item:hover \x7b\n                    background: white;\n                    box-shadow: 0 5px 15px rgba(0, 0, 0, 0.1);\n                    transform: translateX(5px);\n                \x7d\n                .command-name \x7b\n                    font-weight: 700;\n                    color: #1e293b;\n                    font-size: 1.1em;\n                    margin-bottom: 8px;\n                \x7d\n                .command-name::before \x7b\n                    content: \x27/\x27;\n                    color: #64748b;\n                    margin-right: 4px;\n                \x7d\n                .command-desc \x7b\n                    color: #64748b;\n                    font-size: 0.95em;\n                    line-height: 1.4;\n                \x7d\n                .footer \x7b\n                    background: #1e293b;\n                    color: white;\n                    padding: 25px;\n                    text-align: center;\n                    border-radius: 0 0 20px 20px;\n                \x7d\n                .footer-text \x7b\n                    opacity: 0.8;\n                    font-size: 0.9em;\n                \x7d\n                .icon \x7b\n                    font-size: 1.2em;\n                    margin-right: 8px;\n                \x7d\n            </style>\n        </head>\n        <body>\n            <div class=\"container\">\n                <div class=\"header\">\n                    <h1>🚀 AstrBot 指令帮助系统</h1>\n                    <p>现代化指令管理 • 可视化界面 • 智能分类</p>\n                    \n                    <div class=\"stats\">\n                        <div class=\"stat-item\">\n                            <span class=\"stat-number\">"

def helpHtmlMid : String :=
  "</span>\n                            <span class=\"stat-label\">分类数量</span>\n                        </div>\n                        <div class=\"stat-item\">\n                            <span class=\"stat-number\">"

def helpHtmlHeadEnd : String :=
  "</span>\n                            <span class=\"stat-label\">指令总数</span>\n                        </div>\n                    </div>\n                </div>\n                \n                <div class=\"categories\">\n        "

def catBlockPre : String :=
  "\n                    <div class=\"category\">\n                        <div class=\"category-header\">\n                            <div class=\"category-title\">\n                                <span class=\"icon\">📁</span>\n                                "

def catBlockMid1 : String :=
  "\n                            </div>\n                            <div class=\"category-count\">\n                                "

def catBlockMid2 : String :=
  " 个指令\n                            </div>\n                        </div>\n                        <div class=\"commands-grid\">\n            "

def cmdItemPre : String :=
  "\n                            <div class=\"command-item\">\n                                <div class=\"command-name\">"

def cmdItemMid : String :=
  "</div>\n                                <div class=\"command-desc\">"

def cmdItemEnd : String :=
  "</div>\n                            </div>\n                "

def catBlockClose : String :=
  "\n                        </div>\n                    </div>\n            "

def footPre : String :=
  "\n                </div>\n                \n                <div class=\"footer\">\n                    <div class=\"footer-text\">\n                        生成时间: "

def footEnd : String :=
  " | 指令管理器 v1.3 | 作者: 腾天\n                    </div>\n                </div>\n            </div>\n        </body>\n        </html>\n        "

/-- The per-category part of the template: one block per category in input
order, one command item per command in input order, absent name rendered as
the empty string and absent description as the fixed placeholder
(`cmd.get` defaults, lines 594-595). -/
def categoriesHtml (categories : List Category) : String :=
  categories.foldl (fun acc category =>
    acc ++ catBlockPre ++ category.name ++ catBlockMid1
      ++ toString category.commands.length ++ catBlockMid2
      ++ category.commands.foldl (fun acc2 cmd =>
          acc2 ++ cmdItemPre ++ cmd.name?.getD "" ++ cmdItemMid
            ++ cmd.desc?.getD "该指令暂无描述信息" ++ cmdItemEnd) ""
      ++ catBlockClose) ""

/-- `ImageGenerator.generate_help_html` (lines 380-617): the header reports
`len(categories)` and `total_commands = sum(len(cat['commands']) for cat in
categories)` in the two `stat-number` slots, then the category blocks, then
the footer around the current time (`now`, the only impure input of the
Python method). -/
def generate_help_html (categories : List Category) (now : String) : String :=
  let total_commands := List.sum (categories.map fun cat => cat.commands.length)
  helpHtmlPre ++ toString categories.length ++ helpHtmlMid
    ++ toString total_commands ++ helpHtmlHeadEnd
    ++ categoriesHtml categories
    ++ footPre ++ now ++ footEnd

/-- C6: for every category list (the empty one included), the formatter's
HTML reports, in the first `stat-number` slot, exactly the length of the
input list and, in the second, exactly the sum of the lengths of the
categories' command lists; on the empty list both slots hold `"0"`. -/
theorem claim_C6_counts (categories : List Category) (now : String) :
    generate_help_html categories now
      = helpHtmlPre ++ (toString categories.length ++ (helpHtmlMid
          ++ (toString (List.sum (categories.map fun cat => cat.commands.length))
          ++ (helpHtmlHeadEnd ++ (categoriesHtml categories
          ++ (footPre ++ (now ++ footEnd))))))) ∧
    generate_help_html [] now
      = helpHtmlPre ++ ("0" ++ (helpHtmlMid ++ ("0"
          ++ (helpHtmlHeadEnd ++ (footPre ++ (now ++ footEnd)))))) := by
  constructor
  · simp [generate_help_html, String.append_assoc]
  · simp [generate_help_html, categoriesHtml, String.append_assoc]
    rfl
